import Mathlib

/-!
Shallow embedding of `src/app.py` of the movie_recommendation_system repository.

Modelling conventions:

* Similarity scores (numpy float64 in the source) are modelled as rationals:
  the code only compares and sorts them, so any linear order is faithful.
* Python `sorted(xs, reverse=True, key=lambda x: x[1])` is a stable sort by
  descending score (CPython guarantees stability, with `reverse=True` keeping
  equal-key elements in original order).  It is embedded as insertion sort
  with the relation `scoreDescLe a b := b.2 ≤ a.2`, which is a stable
  descending sort and therefore extensionally equal to CPython's.
* A Python value `v` passed as `movie_id` is represented by what `int(v)`
  yields: `none` when `int` raises `ValueError`, `some n` when it returns `n`.
* Exceptions are explicit: the body of `fetch_poster` maps into
  `Except PyExc String`, and the `except` chain is the handler `handleFetchExc`.
  A `response.json()` failure is modelled as a generic exception handled by
  the final `except Exception` branch, following the code's own comment
  ("Fallback for other errors (e.g., JSON parsing or ValueError ...)").
* The `@st.cache_data(ttl=3600)` layer on `fetch_poster` is modelled as an
  explicit cache from the argument to (value, write time) with lazy TTL
  eviction, and `recommend` is modelled against a fixed per-id remote
  behaviour `remote : Int → RemoteResult`.
-/

/-- `POSTER_BASE_URL` from app.py line 11. -/
def POSTER_BASE_URL : String := "https://image.tmdb.org/t/p/w500/"

/-- Placeholder returned for an in-payload status_code 7 (app.py line 35). -/
def invalidApiKeyPlaceholder : String :=
  "https://placehold.co/500x750/cccccc/333333?text=Invalid+API+Key"

/-- Placeholder returned for HTTP 404 (app.py line 53). -/
def idNotFoundPlaceholder : String :=
  "https://placehold.co/500x750/cccccc/333333?text=ID+Not+Found"

/-- Placeholder returned for non-404 HTTP errors (app.py line 56). -/
def networkErrorPlaceholder : String :=
  "https://placehold.co/500x750/cccccc/333333?text=Network+Error"

/-- Placeholder returned for transport-level request failures (app.py line 61). -/
def connectionRefusedPlaceholder : String :=
  "https://placehold.co/500x750/cccccc/333333?text=Connection+Refused"

/-- Placeholder returned when the payload has no usable poster_path (app.py line 45). -/
def posterUnavailablePlaceholder : String :=
  "https://placehold.co/500x750/cccccc/333333?text=Poster+Unavailable"

/-- Placeholder returned by the final generic handler (app.py line 67). -/
def unknownErrorPlaceholder : String :=
  "https://placehold.co/500x750/cccccc/333333?text=Unknown+Error"

/-- JSON body of the remote response: either unparsable, or a record carrying
the two optional fields the code reads (`status_code` and `poster_path`). -/
inductive JsonBody where
  | malformed
  | fields (status_code : Option Int) (poster_path : Option String)
  deriving DecidableEq

/-- Behaviour of `requests.get` for one call: a transport-level failure
(connection refused, DNS, timeout — `requests.exceptions.RequestException`),
or an HTTP response with a status and a body. -/
inductive RemoteResult where
  | transportError
  | response (status : Nat) (body : JsonBody)
  deriving DecidableEq

/-- Exceptions that can be raised inside the `try` block of `fetch_poster`. -/
inductive PyExc where
  | httpError (status : Nat)
  | requestError
  | valueError
  | jsonError
  deriving DecidableEq

/-- The `try` block of `fetch_poster` (app.py lines 23-45).  `raise_for_status`
raises `HTTPError` exactly for status codes in [400, 600); the status_code-7
check and the truthiness test `if poster_path:` (empty string is falsy) follow
the source order. -/
def fetchPosterBody (movie_id : Option Int) (remote : RemoteResult) :
    Except PyExc String :=
  match movie_id with
  | none => Except.error PyExc.valueError
  | some _ =>
    match remote with
    | RemoteResult.transportError => Except.error PyExc.requestError
    | RemoteResult.response status body =>
      if 400 ≤ status ∧ status < 600 then Except.error (PyExc.httpError status)
      else
        match body with
        | JsonBody.malformed => Except.error PyExc.jsonError
        | JsonBody.fields sc pp =>
          if sc = some 7 then Except.ok invalidApiKeyPlaceholder
          else
            match pp with
            | some p =>
              if p = "" then Except.ok posterUnavailablePlaceholder
              else Except.ok (POSTER_BASE_URL ++ p)
            | none => Except.ok posterUnavailablePlaceholder

/-- The `except` chain of `fetch_poster` (app.py lines 47-67): `HTTPError`
first (404 versus other statuses), then the remaining `RequestException`s,
then the catch-all `except Exception`. -/
def handleFetchExc (e : PyExc) : String :=
  match e with
  | PyExc.httpError status =>
    if status = 404 then idNotFoundPlaceholder else networkErrorPlaceholder
  | PyExc.requestError => connectionRefusedPlaceholder
  | PyExc.valueError => unknownErrorPlaceholder
  | PyExc.jsonError => unknownErrorPlaceholder

/-- `fetch_poster` (app.py lines 17-67), uncached: run the body, and feed any
raised exception into the handler chain. -/
def fetch_poster (movie_id : Option Int) (remote : RemoteResult) : String :=
  match fetchPosterBody movie_id remote with
  | Except.ok s => s
  | Except.error e => handleFetchExc e

/-- Whether a call to (uncached) `fetch_poster` reaches `requests.get`:
only the `int(movie_id)` conversion precedes the GET, so the network is
touched exactly when the conversion succeeds. -/
def fetchMakesNetworkCall (movie_id : Option Int) : Bool :=
  movie_id.isSome

/-- TTL of the Streamlit cache on `fetch_poster`, in seconds (app.py line 16). -/
def TTL : Nat := 3600

/-- The `st.cache_data` store for `fetch_poster`: argument to cached value and
write time. -/
abbrev Cache := Option Int → Option (String × Nat)

/-- Cache lookup with lazy TTL eviction: an entry written at time `t` is
served only while `now < t + TTL`. -/
def cacheLookup (c : Cache) (now : Nat) (k : Option Int) : Option String :=
  match c k with
  | some (v, t) => if now < t + TTL then some v else none
  | none => none

/-- One call to the cached `fetch_poster`: on a hit return the cached value
with no network activity; on a miss run `fetch_poster`, store the outcome
(fallbacks included) keyed by the argument with the current time, and report
whether the network was touched.  Result: (value, new cache, network used). -/
def cachedFetchPoster (c : Cache) (now : Nat) (movie_id : Option Int)
    (remote : RemoteResult) : String × Cache × Bool :=
  match cacheLookup c now movie_id with
  | some v => (v, c, false)
  | none =>
    let v := fetch_poster movie_id remote
    (v, fun k => if k = movie_id then some (v, now) else c k,
     fetchMakesNetworkCall movie_id)

/-- One row of the `movies` DataFrame: the columns the code reads. -/
structure MovieRow where
  title : String
  movie_id : Int
  deriving DecidableEq

/-- The module-level state loaded by `load_data`: the movies DataFrame and the
similarity matrix. -/
structure AppState where
  movies : List MovieRow
  similarity : List (List ℚ)

/-- `movies[movies['title'] == movie].index[0]` (app.py line 75): position of
the first row whose title equals `movie`; `none` models the `IndexError`. -/
def findMovieIndex (movies : List MovieRow) (movie : String) : Option Nat :=
  movies.findIdx? (fun r => r.title = movie)

/-- Comparison used by the sort at app.py line 81: `a` may precede `b` when
the score of `b` is at most the score of `a`. -/
def scoreDescLe (a b : Nat × ℚ) : Prop := b.2 ≤ a.2

instance : DecidableRel scoreDescLe := fun a b =>
  inferInstanceAs (Decidable (b.2 ≤ a.2))

/-- `sorted(xs, reverse=True, key=lambda x: x[1])`: stable descending sort by
score, realised as insertion sort with `scoreDescLe`. -/
def pySortedDesc (l : List (Nat × ℚ)) : List (Nat × ℚ) :=
  List.insertionSort scoreDescLe l

/-- `sorted(list(enumerate(distances)), reverse=True, key=lambda x: x[1])[1:6]`
(app.py line 81): the five (position, score) pairs the loop then iterates. -/
def moviesList (distances : List ℚ) : List (Nat × ℚ) :=
  ((pySortedDesc distances.enum).drop 1).take 5

/-- The loop at app.py lines 87-92, restricted to its fallible part:
`movies.iloc[i[0]]` for each pair, with `none` modelling an `IndexError`
aborting the whole loop. -/
def lookupRows (movies : List MovieRow) : List (Nat × ℚ) → Option (List MovieRow)
  | [] => some []
  | p :: ps =>
    match movies[p.1]? with
    | none => none
    | some r =>
      match lookupRows movies ps with
      | none => none
      | some rs => some (r :: rs)

/-- The `try` block of `recommend` (app.py lines 73-94): find the movie's
position, read the similarity row, sort and slice, then build the two lists.
`none` models an exception reaching the `except` clauses. -/
def recommendBody (s : AppState) (remote : Int → RemoteResult) (movie : String) :
    Option (List String × List String) :=
  match findMovieIndex s.movies movie with
  | none => none
  | some movie_index =>
    match s.similarity[movie_index]? with
    | none => none
    | some distances =>
      match lookupRows s.movies (moviesList distances) with
      | none => none
      | some rows =>
        some (rows.map (fun r => r.title),
              rows.map (fun r => fetch_poster (some r.movie_id) (remote r.movie_id)))

/-- `recommend` (app.py lines 71-101): both `except` clauses return
`([], [])`. -/
def recommend (s : AppState) (remote : Int → RemoteResult) (movie : String) :
    List String × List String :=
  match recommendBody s remote movie with
  | some result => result
  | none => ([], [])

/-- The order the spec asserts for neighbor results: strictly descending
score, ties in ascending original position. -/
def lexR (a b : Nat × ℚ) : Prop := b.2 < a.2 ∨ (a.2 = b.2 ∧ a.1 < b.1)

instance : DecidableRel lexR := fun a b =>
  inferInstanceAs (Decidable (b.2 < a.2 ∨ (a.2 = b.2 ∧ a.1 < b.1)))

/-! Helper lemmas about the stable descending sort and the sliced result. -/

theorem pySortedDesc_perm (l : List (Nat × ℚ)) : List.Perm (pySortedDesc l) l :=
  List.perm_insertionSort scoreDescLe l

theorem pairwise_lexR_orderedInsert (a : Nat × ℚ) (s : List (Nat × ℚ))
    (hs : s.Pairwise lexR) (ha : ∀ b ∈ s, a.1 < b.1) :
    (List.orderedInsert scoreDescLe a s).Pairwise lexR := by
  induction s with
  | nil => simp [List.orderedInsert, List.pairwise_singleton]
  | cons c u ih =>
    simp only [List.orderedInsert]
    by_cases h : scoreDescLe a c
    · rw [if_pos h]
      refine List.Pairwise.cons ?_ hs
      intro x hx
      have hax : a.1 < x.1 := ha x hx
      have hxa : x.2 ≤ a.2 := by
        rcases List.mem_cons.1 hx with rfl | hxu
        · exact h
        · have hcx : lexR c x := (List.pairwise_cons.1 hs).1 x hxu
          have hxc : x.2 ≤ c.2 := by
            rcases hcx with h1 | ⟨h1, _⟩
            · exact le_of_lt h1
            · exact le_of_eq h1.symm
          exact le_trans hxc h
      rcases lt_or_eq_of_le hxa with h1 | h1
      · exact Or.inl h1
      · exact Or.inr ⟨h1.symm, hax⟩
    · rw [if_neg h]
      have hu : u.Pairwise lexR := (List.pairwise_cons.1 hs).2
      have hau : ∀ b ∈ u, a.1 < b.1 := fun b hb => ha b (List.mem_cons_of_mem _ hb)
      refine List.Pairwise.cons ?_ (ih hu hau)
      intro y hy
      rcases (List.mem_orderedInsert scoreDescLe).1 hy with rfl | hyu
      · exact Or.inl (lt_of_not_le h)
      · exact (List.pairwise_cons.1 hs).1 y hyu

theorem pairwise_lexR_pySortedDesc (l : List (Nat × ℚ))
    (hl : l.Pairwise (fun a b => a.1 < b.1)) :
    (pySortedDesc l).Pairwise lexR := by
  induction l with
  | nil => exact List.Pairwise.nil
  | cons a t ih =>
    have ht : t.Pairwise (fun a b => a.1 < b.1) := (List.pairwise_cons.1 hl).2
    have hat : ∀ b ∈ t, a.1 < b.1 := (List.pairwise_cons.1 hl).1
    show (List.orderedInsert scoreDescLe a (List.insertionSort scoreDescLe t)).Pairwise lexR
    apply pairwise_lexR_orderedInsert
    · exact ih ht
    · intro b hb
      exact hat b ((List.perm_insertionSort scoreDescLe t).mem_iff.1 hb)

theorem enum_pairwise_fst_lt (l : List ℚ) :
    l.enum.Pairwise (fun a b => a.1 < b.1) := by
  have h := List.pairwise_lt_range l.length
  rw [← List.enum_map_fst l] at h
  exact List.pairwise_map.1 h

theorem enum_nodup (l : List ℚ) : l.enum.Nodup := by
  apply List.Nodup.of_map Prod.fst
  rw [List.enum_map_fst]
  exact List.nodup_range l.length

theorem moviesList_sublist (row : List ℚ) :
    (moviesList row).Sublist (pySortedDesc row.enum) :=
  (List.take_sublist _ _).trans (List.drop_sublist _ _)

theorem moviesList_pairwise_lexR (row : List ℚ) :
    (moviesList row).Pairwise lexR :=
  List.Pairwise.sublist (moviesList_sublist row)
    (pairwise_lexR_pySortedDesc row.enum (enum_pairwise_fst_lt row))

theorem mem_moviesList_lt (row : List ℚ) (p : Nat × ℚ) (hp : p ∈ moviesList row) :
    p.1 < row.length := by
  have h1 : p ∈ pySortedDesc row.enum := (moviesList_sublist row).subset hp
  have h2 : p ∈ row.enum := (pySortedDesc_perm row.enum).mem_iff.1 h1
  exact List.fst_lt_of_mem_enum h2

theorem moviesList_length (row : List ℚ) :
    (moviesList row).length = min 5 (row.length - 1) := by
  unfold moviesList
  rw [List.length_take, List.length_drop,
    (pySortedDesc_perm row.enum).length_eq, List.enum_length]

theorem pySortedDesc_enum_head (row : List ℚ) (i : Nat) (hi : i < row.length)
    (hmax : ∀ j (hj : j < row.length), j ≠ i → row[j] < row[i]) :
    ∃ t, pySortedDesc row.enum = (i, row[i]) :: t := by
  have hperm := pySortedDesc_perm row.enum
  have hlen : (pySortedDesc row.enum).length = row.length := by
    rw [hperm.length_eq, List.enum_length]
  have hmem_self : (i, row[i]) ∈ pySortedDesc row.enum := by
    apply hperm.mem_iff.2
    exact List.mem_enum_iff_getElem?.2 (List.getElem?_eq_getElem hi)
  cases hsort : pySortedDesc row.enum with
  | nil =>
    rw [hsort] at hmem_self
    cases hmem_self
  | cons h t =>
    refine ⟨t, ?_⟩
    have hh_mem : h ∈ row.enum := hperm.mem_iff.1 (by rw [hsort]; exact List.mem_cons_self h t)
    have hh1 : h.1 < row.length := List.fst_lt_of_mem_enum hh_mem
    have hh2 : h.2 = row[h.1] := List.snd_eq_of_mem_enum hh_mem
    by_cases hcase : h.1 = i
    · have : h = (i, row[i]) := by
        apply Prod.ext
        · exact hcase
        · rw [hh2]; simp [hcase]
      rw [this]
    · exfalso
      have hlex : lexR h (i, row[i]) := by
        have hpw := pairwise_lexR_pySortedDesc row.enum (enum_pairwise_fst_lt row)
        rw [hsort] at hpw
        have hself_t : (i, row[i]) ∈ t := by
          rw [hsort] at hmem_self
          rcases List.mem_cons.1 hmem_self with heq | ht
          · exact absurd (congrArg Prod.fst heq.symm) hcase
          · exact ht
        exact (List.pairwise_cons.1 hpw).1 _ hself_t
      have hlt : row[h.1] < row[i] := hmax h.1 hh1 hcase
      rcases hlex with h1 | ⟨h1, _⟩
      · rw [hh2] at h1
        exact absurd h1 (not_lt_of_lt hlt)
      · rw [hh2] at h1
        exact absurd h1 (ne_of_lt hlt)

/-! Helper lemmas about the row-extraction loop. -/

theorem lookupRows_isSome (movies : List MovieRow) (ps : List (Nat × ℚ))
    (h : ∀ p ∈ ps, p.1 < movies.length) :
    ∃ rows, lookupRows movies ps = some rows := by
  induction ps with
  | nil => exact ⟨[], rfl⟩
  | cons p ps ih =>
    obtain ⟨rows, hrows⟩ := ih (fun q hq => h q (List.mem_cons_of_mem _ hq))
    have hp : p.1 < movies.length := h p (List.mem_cons_self p ps)
    refine ⟨movies[p.1] :: rows, ?_⟩
    simp only [lookupRows, List.getElem?_eq_getElem hp, hrows]

theorem lookupRows_sound (movies : List MovieRow) (ps : List (Nat × ℚ))
    (rows : List MovieRow) (h : lookupRows movies ps = some rows) :
    rows.length = ps.length ∧ ∀ r ∈ rows, r ∈ movies := by
  induction ps generalizing rows with
  | nil =>
    simp only [lookupRows, Option.some.injEq] at h
    subst h
    exact ⟨rfl, by simp⟩
  | cons p ps ih =>
    simp only [lookupRows] at h
    cases hg : movies[p.1]? with
    | none => rw [hg] at h; cases h
    | some r =>
      rw [hg] at h
      cases hl : lookupRows movies ps with
      | none => rw [hl] at h; cases h
      | some rs =>
        rw [hl] at h
        cases h
        obtain ⟨hlen, hmem⟩ := ih rs hl
        refine ⟨by simp [hlen], ?_⟩
        intro x hx
        rcases List.mem_cons.1 hx with rfl | hx
        · exact List.getElem?_mem hg
        · exact hmem x hx

/-! Claim theorems for the metadata fetcher. -/

/-- C3 counterexample: the input normalizing to -1 cannot be normalized to a
positive integer, yet the code performs the network call (validation only
checks that int() succeeds, not positivity), and with a successful remote
response it even returns a real poster reference instead of a fallback. -/
theorem C3_counterexample :
    (¬ ∃ n : Int, (some (-1) : Option Int) = some n ∧ 0 < n) ∧
    fetchMakesNetworkCall (some (-1)) = true ∧
    fetch_poster (some (-1))
        (RemoteResult.response 200 (JsonBody.fields none (some "/x")))
      = POSTER_BASE_URL ++ "/x" := by
  refine ⟨?_, rfl, rfl⟩
  rintro ⟨n, hn, hpos⟩
  rw [Option.some.injEq] at hn
  omega

/-- C3 (amended): for every input on which int() fails, fetch returns the
Unknown Error placeholder (the placeholder the spec assigns to InvalidId)
without a network call.  The code does not check positivity, so an input
normalizing to a non-positive integer still triggers a network call. -/
theorem C3_unparsable_id_no_network (remote : RemoteResult) :
    fetch_poster none remote = unknownErrorPlaceholder ∧
    fetchMakesNetworkCall none = false :=
  ⟨rfl, rfl⟩

/-- C4: for every input id and every remote behaviour (transport failure, any
HTTP status, malformed JSON, status_code 7, missing poster_path), fetch
returns normally with either a real poster reference or one of the six fixed
placeholders; no exception escapes the handler chain. -/
theorem C4_fetch_never_raises (movie_id : Option Int) (remote : RemoteResult) :
    (∃ p, fetch_poster movie_id remote = POSTER_BASE_URL ++ p) ∨
    fetch_poster movie_id remote ∈
      [invalidApiKeyPlaceholder, idNotFoundPlaceholder, networkErrorPlaceholder,
       connectionRefusedPlaceholder, posterUnavailablePlaceholder,
       unknownErrorPlaceholder] := by
  cases movie_id with
  | none => right; simp [fetch_poster, fetchPosterBody, handleFetchExc]
  | some n =>
    cases remote with
    | transportError =>
      right; simp [fetch_poster, fetchPosterBody, handleFetchExc]
    | response status body =>
      by_cases h4 : 400 ≤ status ∧ status < 600
      · by_cases h404 : status = 404
        · right; simp [fetch_poster, fetchPosterBody, handleFetchExc, h4, h404]
        · right; simp [fetch_poster, fetchPosterBody, handleFetchExc, h4, h404]
      · cases body with
        | malformed =>
          right; simp [fetch_poster, fetchPosterBody, handleFetchExc, h4]
        | fields sc pp =>
          by_cases h7 : sc = some 7
          · right; simp [fetch_poster, fetchPosterBody, h4, h7]
          · cases pp with
            | none => right; simp [fetch_poster, fetchPosterBody, h4, h7]
            | some p =>
              by_cases hp : p = ""
              · right; simp [fetch_poster, fetchPosterBody, h4, h7, hp]
              · left
                refine ⟨p, ?_⟩
                simp [fetch_poster, fetchPosterBody, h4, h7, hp]

/-- C5: each failure category maps to exactly the prescribed placeholder
(status_code 7 on HTTP success, HTTP 404, other HTTP error statuses,
transport failure, missing poster_path, unparsable id or JSON parse failure),
and the six placeholders are pairwise distinct. -/
theorem C5_placeholder_mapping :
    (∀ (n : Int) (status : Nat) (pp : Option String), status < 400 →
       fetch_poster (some n) (RemoteResult.response status (JsonBody.fields (some 7) pp))
         = invalidApiKeyPlaceholder) ∧
    (∀ (n : Int) (body : JsonBody),
       fetch_poster (some n) (RemoteResult.response 404 body) = idNotFoundPlaceholder) ∧
    (∀ (n : Int) (status : Nat) (body : JsonBody),
       400 ≤ status → status < 600 → status ≠ 404 →
       fetch_poster (some n) (RemoteResult.response status body)
         = networkErrorPlaceholder) ∧
    (∀ (n : Int),
       fetch_poster (some n) RemoteResult.transportError
         = connectionRefusedPlaceholder) ∧
    (∀ (n : Int) (status : Nat) (sc : Option Int), status < 400 → sc ≠ some 7 →
       fetch_poster (some n) (RemoteResult.response status (JsonBody.fields sc none))
         = posterUnavailablePlaceholder) ∧
    (∀ remote, fetch_poster none remote = unknownErrorPlaceholder) ∧
    (∀ (n : Int) (status : Nat), status < 400 →
       fetch_poster (some n) (RemoteResult.response status JsonBody.malformed)
         = unknownErrorPlaceholder) ∧
    List.Nodup [invalidApiKeyPlaceholder, idNotFoundPlaceholder,
      networkErrorPlaceholder, connectionRefusedPlaceholder,
      posterUnavailablePlaceholder, unknownErrorPlaceholder] := by
  refine ⟨?_, ?_, ?_, ?_, ?_, ?_, ?_, ?_⟩
  · intro n status pp h
    have h4 : ¬ (400 ≤ status ∧ status < 600) := by omega
    simp [fetch_poster, fetchPosterBody, h4]
  · intro n body
    rfl
  · intro n status body h1 h2 h3
    have h4 : 400 ≤ status ∧ status < 600 := ⟨h1, h2⟩
    simp [fetch_poster, fetchPosterBody, handleFetchExc, h4, h3]
  · intro n
    rfl
  · intro n status sc h1 h2
    have h4 : ¬ (400 ≤ status ∧ status < 600) := by omega
    simp [fetch_poster, fetchPosterBody, h4, h2]
  · intro remote
    rfl
  · intro n status h
    have h4 : ¬ (400 ≤ status ∧ status < 600) := by omega
    simp [fetch_poster, fetchPosterBody, handleFetchExc, h4]
  · decide

/-- C5 witness: concrete instances of each conditional clause of the mapping
theorem. -/
theorem C5_placeholder_mapping_witness :
    fetch_poster (some 1) (RemoteResult.response 200 (JsonBody.fields (some 7) none))
      = invalidApiKeyPlaceholder ∧
    fetch_poster (some 1) (RemoteResult.response 500 JsonBody.malformed)
      = networkErrorPlaceholder ∧
    fetch_poster (some 1) (RemoteResult.response 200 (JsonBody.fields none none))
      = posterUnavailablePlaceholder ∧
    fetch_poster (some 1) (RemoteResult.response 200 JsonBody.malformed)
      = unknownErrorPlaceholder :=
  ⟨C5_placeholder_mapping.1 1 200 none (by omega),
   C5_placeholder_mapping.2.2.1 1 500 JsonBody.malformed (by omega) (by omega)
     (by omega),
   C5_placeholder_mapping.2.2.2.2.1 1 200 none (by omega) (by simp),
   C5_placeholder_mapping.2.2.2.2.2.2.1 1 200 (by omega)⟩

/-- C7: every outcome of the cached fetch, fallback or not, is stored keyed
by the id; a second call for the same id within the TTL window after a miss
returns the identical cached outcome, leaves the cache unchanged and issues
no network call, and a call finding only an expired entry issues a fresh
network call. -/
theorem C7_cache_ttl :
    (∀ (c : Cache) (t₁ t₂ : Nat) (n : Int) (r₁ r₂ : RemoteResult),
       cacheLookup c t₁ (some n) = none → t₁ ≤ t₂ → t₂ < t₁ + TTL →
       cachedFetchPoster ((cachedFetchPoster c t₁ (some n) r₁).2.1) t₂ (some n) r₂
         = ((cachedFetchPoster c t₁ (some n) r₁).1,
            (cachedFetchPoster c t₁ (some n) r₁).2.1, false)) ∧
    (∀ (c : Cache) (t : Nat) (n : Int) (r : RemoteResult) (v : String) (tw : Nat),
       c (some n) = some (v, tw) → tw + TTL ≤ t →
       (cachedFetchPoster c t (some n) r).2.2 = true) := by
  constructor
  · intro c t₁ t₂ n r₁ r₂ hmiss hle hlt
    have hstep : cachedFetchPoster c t₁ (some n) r₁
        = (fetch_poster (some n) r₁,
           fun k => if k = some n then some (fetch_poster (some n) r₁, t₁) else c k,
           fetchMakesNetworkCall (some n)) := by
      simp only [cachedFetchPoster, hmiss]
    rw [hstep]
    have hhit : cacheLookup
        (fun k => if k = some n then some (fetch_poster (some n) r₁, t₁) else c k)
        t₂ (some n) = some (fetch_poster (some n) r₁) := by
      simp [cacheLookup, hlt]
    simp only [cachedFetchPoster, hhit]
  · intro c t n r v tw hc hexp
    have hmiss : cacheLookup c t (some n) = none := by
      simp only [cacheLookup, hc]
      rw [if_neg (by omega : ¬ t < tw + TTL)]
    simp only [cachedFetchPoster, hmiss]
    rfl

/-- C7 witness: an empty cache at time 0, a repeat call at time 10, and an
entry written at time 0 queried again at time 3600. -/
theorem C7_cache_ttl_witness :
    (cacheLookup (fun _ => none) 0 (some 1) = none ∧
     cachedFetchPoster
         ((cachedFetchPoster (fun _ => none) 0 (some 1)
            RemoteResult.transportError).2.1)
         10 (some 1) RemoteResult.transportError
       = ((cachedFetchPoster (fun _ => none) 0 (some 1)
            RemoteResult.transportError).1,
          (cachedFetchPoster (fun _ => none) 0 (some 1)
            RemoteResult.transportError).2.1,
          false)) ∧
    ((fun k => if k = some 1 then some (connectionRefusedPlaceholder, 0) else none :
        Cache) (some 1) = some (connectionRefusedPlaceholder, 0) ∧
     (cachedFetchPoster
         (fun k => if k = some 1 then some (connectionRefusedPlaceholder, 0) else none)
         3600 (some 1) RemoteResult.transportError).2.2 = true) :=
  ⟨⟨rfl, C7_cache_ttl.1 (fun _ => none) 0 10 1 RemoteResult.transportError
      RemoteResult.transportError rfl (by omega) (by decide)⟩,
   ⟨by simp, C7_cache_ttl.2
      (fun k => if k = some 1 then some (connectionRefusedPlaceholder, 0) else none)
      3600 1 RemoteResult.transportError connectionRefusedPlaceholder 0 (by simp)
      (by decide)⟩⟩

/-! Claim theorems for the recommendation lookup. -/

/-- C1 counterexample: with two items whose similarity row ties at the
maximum, querying the second item keeps the queried entry itself in the
results: slicing `[1:6]` drops the top-ranked entry, which the stable sort
places at position 0, not at the queried position 1. -/
theorem C1_counterexample :
    findMovieIndex [⟨"Movie A", 1⟩, ⟨"Movie B", 2⟩] "Movie B" = some 1 ∧
    (moviesList [1, 1]).map Prod.fst = [1] ∧
    (recommend ⟨[⟨"Movie A", 1⟩, ⟨"Movie B", 2⟩], [[1, 1], [1, 1]]⟩
        (fun _ => RemoteResult.transportError) "Movie B").1 = ["Movie B"] :=
  ⟨by decide, by decide, by decide⟩

/-- C1 (amended): the sliced neighbor list excludes the queried position
provided the row's self-entry is a strict maximum (strictly greater than
every other entry of the row); then the stable descending sort puts it first
and the `[1:6]` slice removes exactly it.  Without strictness another item
can tie at an earlier position and the queried item survives, as the
counterexample shows. -/
theorem C1_neighbors_exclude_self (s : AppState) (movie : String) (i : Nat)
    (row : List ℚ)
    (h1 : findMovieIndex s.movies movie = some i)
    (h2 : s.similarity[i]? = some row)
    (hi : i < row.length)
    (hmax : ∀ j (hj : j < row.length), j ≠ i → row[j] < row[i]) :
    ∀ p ∈ moviesList row, p.1 ≠ i := by
  obtain ⟨t, ht⟩ := pySortedDesc_enum_head row i hi hmax
  intro p hp hpi
  have hp_sorted : p ∈ pySortedDesc row.enum := (moviesList_sublist row).subset hp
  have hp_enum : p ∈ row.enum := (pySortedDesc_perm row.enum).mem_iff.1 hp_sorted
  have hP : row[p.1]? = some p.2 := List.mem_enum_iff_getElem?.1 hp_enum
  rw [hpi, List.getElem?_eq_getElem hi] at hP
  have hp_eq : p = (i, row[i]) := by
    rcases p with ⟨pa, pb⟩
    simp only at hpi
    subst hpi
    simp only [Option.some.injEq] at hP
    rw [hP]
  have hnodup : (pySortedDesc row.enum).Nodup :=
    (pySortedDesc_perm row.enum).nodup_iff.2 (enum_nodup row)
  rw [ht] at hnodup
  have hp_t : p ∈ t := by
    have hmem : p ∈ ((pySortedDesc row.enum).drop 1).take 5 := hp
    rw [ht] at hmem
    simp only [List.drop_succ_cons, List.drop_zero] at hmem
    exact (List.take_sublist 5 t).subset hmem
  rw [hp_eq] at hp_t
  exact (List.nodup_cons.1 hnodup).1 hp_t

/-- C1 witness: a row whose self-entry is the unique maximum. -/
theorem C1_neighbors_exclude_self_witness :
    findMovieIndex [⟨"Alpha", 1⟩, ⟨"Beta", 2⟩, ⟨"Gamma", 3⟩] "Beta" = some 1 ∧
    (∀ p ∈ moviesList [0, 2, 1], p.1 ≠ 1) :=
  ⟨by decide,
   C1_neighbors_exclude_self
     ⟨[⟨"Alpha", 1⟩, ⟨"Beta", 2⟩, ⟨"Gamma", 3⟩],
      [[2, 0, 1], [0, 2, 1], [1, 1, 2]]⟩
     "Beta" 1 [0, 2, 1] (by decide) (by decide) (by decide)
     (by decide)⟩

/-- C2 counterexample: for a title matching no item, `recommend` returns the
empty pair rather than surfacing an error value to its caller: the
`IndexError` is caught inside and converted to `([], [])`. -/
theorem C2_counterexample :
    findMovieIndex [⟨"Movie A", 1⟩] "Nonexistent Movie" = none ∧
    recommend ⟨[⟨"Movie A", 1⟩], [[1]]⟩ (fun _ => RemoteResult.transportError)
        "Nonexistent Movie"
      = ([], []) :=
  ⟨by decide, by decide⟩

/-- C2 (amended): for every loaded state and title matching no item, the
lookup failure is caught inside `recommend` (which reports it through the UI)
and the caller receives the empty pair `([], [])`; no error propagates. -/
theorem C2_unknown_title_returns_empty (s : AppState)
    (remote : Int → RemoteResult) (movie : String)
    (h : findMovieIndex s.movies movie = none) :
    recommend s remote movie = ([], []) := by
  simp [recommend, recommendBody, h]

/-- C2 witness. -/
theorem C2_unknown_title_returns_empty_witness :
    findMovieIndex [⟨"Alpha", 3⟩] "Beta" = none ∧
    recommend ⟨[⟨"Alpha", 3⟩], [[1]]⟩ (fun _ => RemoteResult.transportError)
        "Beta"
      = ([], []) :=
  ⟨by decide,
   C2_unknown_title_returns_empty ⟨[⟨"Alpha", 3⟩], [[1]]⟩
     (fun _ => RemoteResult.transportError) "Beta" (by decide)⟩

/-- C6: for a title present in the catalog with its similarity row, the
sliced neighbor sequence is strictly descending in score, with equal scores
ordered by ascending original catalog position (stability of the sort). -/
theorem C6_sorted_desc_ties_ascending (s : AppState) (movie : String) (i : Nat)
    (row : List ℚ)
    (_h1 : findMovieIndex s.movies movie = some i)
    (_h2 : s.similarity[i]? = some row) :
    (moviesList row).Pairwise lexR :=
  moviesList_pairwise_lexR row

/-- C6 witness: a row with a tie between positions 0 and 2. -/
theorem C6_sorted_desc_ties_ascending_witness :
    findMovieIndex [⟨"Alpha", 1⟩, ⟨"Beta", 2⟩, ⟨"Gamma", 3⟩] "Beta" = some 1 ∧
    (([[2, 1, 1], [1, 2, 1], [1, 1, 2]] : List (List ℚ))[1]? = some [1, 2, 1]) ∧
    (moviesList [1, 2, 1]).Pairwise lexR :=
  ⟨by decide, by decide,
   C6_sorted_desc_ties_ascending
     ⟨[⟨"Alpha", 1⟩, ⟨"Beta", 2⟩, ⟨"Gamma", 3⟩],
      [[2, 1, 1], [1, 2, 1], [1, 1, 2]]⟩
     "Beta" 1 [1, 2, 1] (by decide) (by decide)⟩

/-- C8: for a present title whose similarity row has one score per catalog
item, recommend returns exactly min(5, n-1) titles and as many posters. -/
theorem C8_returns_min_five (s : AppState) (remote : Int → RemoteResult)
    (movie : String) (i : Nat) (row : List ℚ)
    (h1 : findMovieIndex s.movies movie = some i)
    (h2 : s.similarity[i]? = some row)
    (hrow : row.length = s.movies.length) :
    (recommend s remote movie).1.length = min 5 (s.movies.length - 1) ∧
    (recommend s remote movie).2.length = min 5 (s.movies.length - 1) := by
  have hlt : ∀ p ∈ moviesList row, p.1 < s.movies.length := fun p hp =>
    hrow ▸ mem_moviesList_lt row p hp
  obtain ⟨rows, hrows⟩ := lookupRows_isSome s.movies (moviesList row) hlt
  obtain ⟨hlen, _⟩ := lookupRows_sound s.movies (moviesList row) rows hrows
  have hrec : recommend s remote movie
      = (rows.map (fun r => r.title),
         rows.map (fun r => fetch_poster (some r.movie_id) (remote r.movie_id))) := by
    simp [recommend, recommendBody, h1, h2, hrows]
  rw [hrec]
  simp only [List.length_map]
  rw [hlen, moviesList_length, hrow]
  exact ⟨rfl, rfl⟩

/-- C8 witness: three items, so exactly min(5, 2) = 2 results. -/
theorem C8_returns_min_five_witness :
    findMovieIndex [⟨"Alpha", 1⟩, ⟨"Beta", 2⟩, ⟨"Gamma", 3⟩] "Alpha" = some 0 ∧
    (recommend ⟨[⟨"Alpha", 1⟩, ⟨"Beta", 2⟩, ⟨"Gamma", 3⟩],
        [[1, 0, 0], [0, 1, 0], [0, 0, 1]]⟩
      (fun _ => RemoteResult.transportError) "Alpha").1.length = 2 :=
  ⟨by decide, by
    rw [(C8_returns_min_five ⟨[⟨"Alpha", 1⟩, ⟨"Beta", 2⟩, ⟨"Gamma", 3⟩],
        [[1, 0, 0], [0, 1, 0], [0, 0, 1]]⟩
      (fun _ => RemoteResult.transportError) "Alpha" 0 [1, 0, 0]
      (by decide) (by decide) (by decide)).1]
    decide⟩

/-- C9: the ordered title sequence recommend returns is a function of the
loaded state and the queried title only: two calls with the same title agree
even when the remote service behaves differently between the calls. -/
theorem C9_deterministic_titles (s : AppState) (r1 r2 : Int → RemoteResult)
    (movie : String) :
    (recommend s r1 movie).1 = (recommend s r2 movie).1 := by
  cases h1 : findMovieIndex s.movies movie with
  | none => simp [recommend, recommendBody, h1]
  | some i =>
    cases h2 : s.similarity[i]? with
    | none => simp [recommend, recommendBody, h1, h2]
    | some row =>
      cases h3 : lookupRows s.movies (moviesList row) with
      | none => simp [recommend, recommendBody, h1, h2, h3]
      | some rows => simp [recommend, recommendBody, h1, h2, h3]

/-- C10: recommend always returns two lists of equal length at most 5,
index-aligned over a common list of catalog rows (the i-th poster is the
fetch result for the i-th title's external id), and any internal failure
yields the empty pair. -/
theorem C10_aligned_pair (s : AppState) (remote : Int → RemoteResult)
    (movie : String) :
    ((recommend s remote movie).1.length = (recommend s remote movie).2.length ∧
     (recommend s remote movie).1.length ≤ 5 ∧
     ∃ rows : List MovieRow, (∀ r ∈ rows, r ∈ s.movies) ∧
       (recommend s remote movie).1 = rows.map (fun r => r.title) ∧
       (recommend s remote movie).2
         = rows.map (fun r => fetch_poster (some r.movie_id) (remote r.movie_id))) ∧
    (recommendBody s remote movie = none → recommend s remote movie = ([], [])) := by
  constructor
  · cases h1 : findMovieIndex s.movies movie with
    | none =>
      have hrec : recommend s remote movie = ([], []) := by
        simp [recommend, recommendBody, h1]
      rw [hrec]
      exact ⟨rfl, Nat.zero_le 5, [], by simp, rfl, rfl⟩
    | some i =>
      cases h2 : s.similarity[i]? with
      | none =>
        have hrec : recommend s remote movie = ([], []) := by
          simp [recommend, recommendBody, h1, h2]
        rw [hrec]
        exact ⟨rfl, Nat.zero_le 5, [], by simp, rfl, rfl⟩
      | some row =>
        cases h3 : lookupRows s.movies (moviesList row) with
        | none =>
          have hrec : recommend s remote movie = ([], []) := by
            simp [recommend, recommendBody, h1, h2, h3]
          rw [hrec]
          exact ⟨rfl, Nat.zero_le 5, [], by simp, rfl, rfl⟩
        | some rows =>
          have hrec : recommend s remote movie
              = (rows.map (fun r => r.title),
                 rows.map (fun r =>
                   fetch_poster (some r.movie_id) (remote r.movie_id))) := by
            simp [recommend, recommendBody, h1, h2, h3]
          obtain ⟨hlen, hmem⟩ := lookupRows_sound s.movies (moviesList row) rows h3
          rw [hrec]
          refine ⟨by simp, ?_, rows, hmem, rfl, rfl⟩
          simp only [List.length_map]
          rw [hlen]
          have h5 : (moviesList row).length = min 5 (row.length - 1) :=
        moviesList_length row
          rw [h5]
          exact Nat.min_le_left 5 (row.length - 1)
  · intro h
    simp [recommend, h]

/-- C10 witness: a one-item catalog, queried with an absent and with the
present title. -/
theorem C10_aligned_pair_witness :
    recommend ⟨[⟨"Solo", 9⟩], [[1]]⟩ (fun _ => RemoteResult.transportError)
        "Missing"
      = ([], []) ∧
    (recommend ⟨[⟨"Solo", 9⟩], [[1]]⟩ (fun _ => RemoteResult.transportError)
        "Solo").1.length ≤ 5 :=
  ⟨(C10_aligned_pair ⟨[⟨"Solo", 9⟩], [[1]]⟩ (fun _ => RemoteResult.transportError)
      "Missing").2 (by decide),
   (C10_aligned_pair ⟨[⟨"Solo", 9⟩], [[1]]⟩ (fun _ => RemoteResult.transportError)
      "Solo").1.2.1⟩
